import Mathlib

/-!
Verification of the coffee-places query service
(`src/routes/coffeePlaces.ts` and `src/utils/cityAliases.ts`).

The route handler is embedded shallowly: the SQL fragments that the
handler assembles (`whereConditions`, `ORDER BY`, `LIMIT/OFFSET`,
`COUNT(*)`) are given their PostgreSQL semantics as executable Lean
functions over an explicit list of database rows, and the pure
TypeScript helpers (`transformDatabaseRecord`, `getCanonicalCityName`)
are translated function by function.
-/

namespace CoffeeApi

/-- ASCII lowercasing; embeds both JavaScript `toLowerCase()` and SQL
`LOWER(..)` for the ASCII city names appearing in this code base. -/
def lowerAscii (s : String) : String :=
  ⟨s.data.map Char.toLower⟩

/-- Lexicographic order on character lists; the comparison PostgreSQL
performs on `VARCHAR` values such as the zero-padded `HH:mm` strings in
`opening_hours_start` and `opening_hours_end`. -/
def charListLe : List Char → List Char → Bool
  | [], _ => true
  | _ :: _, [] => false
  | a :: as, b :: bs =>
    if a < b then true
    else if b < a then false
    else charListLe as bs

/-- SQL text comparison `s1 <= s2`. -/
def strLe (a b : String) : Bool :=
  charListLe a.data b.data

/-- One row of the `coffee_places` table, restricted to the columns the
route handler reads.  Nullable columns are `Option`.  Numeric column
types follow the raw-query driver: `google_rating DECIMAL(2,1)` arrives
as a nullable decimal object (modelled `Option ℚ`), `quality_score
INTEGER` as a nullable machine number (modelled `Option ℤ`), and `tags
TEXT[]` as a nullable array of strings. -/
structure DbRecord where
  id : String
  name : String
  address_city : Option String
  google_rating : Option ℚ
  quality_score : Option ℤ
  opening_hours_start : Option String
  opening_hours_end : Option String
  tags : Option (List String)
deriving Repr, DecidableEq

/-- The response object built by `transformDatabaseRecord`, restricted to
the core fields that are always present (`id`, `name`, `city`, `rating`,
`openHours.start`, `openHours.end`, `tags`); the sparse optional fields
are not needed by any property below.  `openHoursStart` and
`openHoursEnd` embed `openHours.start` and `openHours.end`. -/
structure Place where
  id : String
  name : String
  city : String
  rating : ℚ
  openHoursStart : String
  openHoursEnd : String
  tags : List String
deriving Repr, DecidableEq

/-- JavaScript `a || b` on a nullable string: `null` and the empty string
are falsy, everything else is truthy. -/
def jsOrString : Option String → String → String
  | none, d => d
  | some s, d => if s = "" then d else s

/-- JavaScript `a || b` on a nullable array: only `null` is falsy (an
empty array is truthy in JavaScript). -/
def jsOrList : Option (List String) → List String → List String
  | none, d => d
  | some l, _ => l

/-- The rating computed by `transformDatabaseRecord`
(coffeePlaces.ts lines 23 to 27):
`record.google_rating ? Number(record.google_rating)
 : record.quality_score ? Number(record.quality_score) / 2 : 0`.
`google_rating` is a nullable decimal object and hence truthy exactly
when non-null; `quality_score` is a nullable machine number, for which
the value `0` is also falsy (in that case the fallback `0` coincides
with `0 / 2`). -/
def ratingOf (r : DbRecord) : ℚ :=
  match r.google_rating with
  | some g => g
  | none =>
    match r.quality_score with
    | some s => if s = 0 then 0 else (s : ℚ) / 2
    | none => 0

/-- Embeds `transformDatabaseRecord` (coffeePlaces.ts lines 15 to 78) on
the core response fields. -/
def transformDatabaseRecord (r : DbRecord) : Place :=
  { id := r.id
    name := r.name
    city := jsOrString r.address_city "Unknown"
    rating := ratingOf r
    openHoursStart := jsOrString r.opening_hours_start "08:00"
    openHoursEnd := jsOrString r.opening_hours_end "18:00"
    tags := jsOrList r.tags [] }

/-- The validated query parameters (`queryParamsSchema.parse` output) as
consumed by the route handler: optional city, optional minimum rating
(a float on the 0 to 5 scale), optional `HH:mm` bounds, the parsed tag
list (empty means no tag filter), the random flag, and optional
limit/page (the handler defaults them to 10 and 1). -/
structure QueryParams where
  city : Option String
  minRating : Option ℚ
  openAfter : Option String
  openBefore : Option String
  tags : List String
  random : Bool
  limit : Option Nat
  page : Option Nat
deriving Repr, DecidableEq

/-- Compiled city condition, `LOWER(address_city) = LOWER($city)`
(coffeePlaces.ts line 232).  A NULL `address_city` makes the SQL
comparison NULL, so the row is not matched. -/
def cityCond (q : String) (r : DbRecord) : Bool :=
  match r.address_city with
  | some c => lowerAscii c = lowerAscii q
  | none => false

/-- Compiled minimum-rating condition (coffeePlaces.ts lines 237 to 244):
`COALESCE(google_rating, 0) >= $minRating OR quality_score >= $minRating * 2`.
A NULL `quality_score` makes its comparison NULL, which cannot satisfy
the OR. -/
def minRatingCond (minR : ℚ) (r : DbRecord) : Bool :=
  (decide (r.google_rating.getD 0 ≥ minR)) ||
    (match r.quality_score with
     | some s => decide ((s : ℚ) ≥ minR * 2)
     | none => false)

/-- Compiled `openAfter` condition, `opening_hours_start <= $openAfter`
(coffeePlaces.ts line 248); a NULL start never matches. -/
def openAfterCond (q : String) (r : DbRecord) : Bool :=
  match r.opening_hours_start with
  | some t => strLe t q
  | none => false

/-- Compiled `openBefore` condition, `opening_hours_end >= $openBefore`
(coffeePlaces.ts line 253); a NULL end never matches. -/
def openBeforeCond (q : String) (r : DbRecord) : Bool :=
  match r.opening_hours_end with
  | some t => strLe q t
  | none => false

/-- Compiled tag condition, `tags @> $tags::text[]` (coffeePlaces.ts
line 259): the stored array must contain every requested tag; a NULL
`tags` column never matches. -/
def tagsCond (req : List String) (r : DbRecord) : Bool :=
  match r.tags with
  | some ts => req.all (fun t => ts.contains t)
  | none => false

/-- The conjunction of the compiled WHERE conditions (coffeePlaces.ts
lines 227 to 266).  Each condition is only added when its parameter is
set: the JavaScript guards are `if (queryParams.city)` (truthy: skipped
for the empty string), `if (queryParams.minRating !== undefined)`,
`if (queryParams.openAfter)`, `if (queryParams.openBefore)`, and
`if (queryParams.tags && queryParams.tags.length > 0)`. -/
def matchesWhere (p : QueryParams) (r : DbRecord) : Bool :=
  (match p.city with
   | some c => if c = "" then true else cityCond c r
   | none => true) &&
  (match p.minRating with
   | some m => minRatingCond m r
   | none => true) &&
  (match p.openAfter with
   | some t => if t = "" then true else openAfterCond t r
   | none => true) &&
  (match p.openBefore with
   | some t => if t = "" then true else openBeforeCond t r
   | none => true) &&
  (if p.tags.isEmpty then true else tagsCond p.tags r)

/-- The set of rows selected by the compiled WHERE clause, in table
order. -/
def filteredRecords (p : QueryParams) (db : List DbRecord) : List DbRecord :=
  db.filter (matchesWhere p)

/-- The `ORDER BY quality_score DESC, name ASC` comparison
(coffeePlaces.ts line 309): higher quality scores first (PostgreSQL
sorts NULLs first in descending order), ties broken by name ascending.
Remaining ties (equal score and name) are resolved stably, fixing one
deterministic refinement of the ORDER BY. -/
def recordLe (a b : DbRecord) : Bool :=
  match a.quality_score, b.quality_score with
  | none, none => strLe a.name b.name
  | none, some _ => true
  | some _, none => false
  | some x, some y =>
    if x = y then strLe a.name b.name else decide (y < x)

/-- The relation form of `recordLe`, for `List.insertionSort`. -/
def recordOrder (a b : DbRecord) : Prop :=
  recordLe a b = true

instance : DecidableRel recordOrder :=
  fun a b => instDecidableEqBool (recordLe a b) true

/-- The handler response: a 200 payload with pagination metadata or the
404 branch.  The 400/500 branches live outside the embedded handler
body (Zod validation happens before it, storage failures below it). -/
inductive ApiResponse where
  | ok (total page pageSize : Nat) (data : List Place)
  | notFound (error : String)
deriving Repr, DecidableEq

/-- The random branch (coffeePlaces.ts lines 269 to 290):
`ORDER BY RANDOM() LIMIT 1` over the filtered rows, modelled by an
externally supplied index `pick` reduced modulo the number of rows;
an empty match set yields the 404 response. -/
def randomResponse (rows : List DbRecord) (pick : Nat) : ApiResponse :=
  match rows with
  | [] => ApiResponse.notFound "No coffee places found matching the criteria"
  | x :: xs =>
    ApiResponse.ok 1 1 1
      [transformDatabaseRecord ((x :: xs).getD (pick % (x :: xs).length) x)]

/-- The paged branch (coffeePlaces.ts lines 292 to 331): `total` from
the COUNT(*) query with the same WHERE clause, limit defaulted to 10,
page defaulted to 1, rows sorted by the ORDER BY and sliced by
`LIMIT limit OFFSET (page - 1) * limit`. -/
def pagedResponse (p : QueryParams) (rows : List DbRecord) : ApiResponse :=
  let lim := p.limit.getD 10
  let pg := p.page.getD 1
  let sorted := List.insertionSort recordOrder rows
  ApiResponse.ok rows.length pg lim
    (((sorted.drop ((pg - 1) * lim)).take lim).map transformDatabaseRecord)

/-- The shared route handler (coffeePlaces.ts lines 221 to 349) after
query validation, over an explicit database state and random source. -/
def routeHandler (p : QueryParams) (db : List DbRecord) (pick : Nat) : ApiResponse :=
  if p.random then randomResponse (filteredRecords p db) pick
  else pagedResponse p (filteredRecords p db)

/-- The route registrations of `coffeePlacesRoutes` (coffeePlaces.ts
lines 352 to 353): both paths are registered with the same handler. -/
def coffeePlacesRoutes : List (String × (QueryParams → List DbRecord → Nat → ApiResponse)) :=
  [("/coffee-places", routeHandler), ("/places", routeHandler)]

/-- Dispatch a request path through the registered routes. -/
def serve (path : String) (p : QueryParams) (db : List DbRecord) (pick : Nat) :
    Option ApiResponse :=
  (coffeePlacesRoutes.lookup path).map (fun h => h p db pick)

/-- The alias table `CITY_ALIASES` (cityAliases.ts lines 4 to 10);
the escape `\x27` stands for the apostrophe character. -/
def CITY_ALIASES : List (String × List String) :=
  [("\x27s-Gravenhage",
     ["Den Haag", "The Hague", "\x27s-Gravenhage", "s-Gravenhage"]),
   ("\x27s-Hertogenbosch",
     ["Den Bosch", "\x27s-Hertogenbosch", "s-Hertogenbosch"])]

/-- The derived `REVERSE_ALIAS_MAP` (cityAliases.ts lines 13 to 18):
lowercased alias
to canonical name.  The JavaScript object is built by assignment with
later entries overwriting earlier ones; the seven lowercased keys are
pairwise distinct, so first-match lookup on this association list
coincides with the built object. -/
def REVERSE_ALIAS_MAP : List (String × String) :=
  CITY_ALIASES.flatMap (fun kv => kv.2.map (fun a => (lowerAscii a, kv.1)))

/-- The lookup `getCanonicalCityName` (cityAliases.ts lines 25 to 28):
`REVERSE_ALIAS_MAP[cityName.toLowerCase()] || cityName`. -/
def getCanonicalCityName (cityName : String) : String :=
  jsOrString (REVERSE_ALIAS_MAP.lookup (lowerAscii cityName)) cityName

/-- Modelled from the spec: the query-parameter validator module
(`src/schema/coffeePlaceSchema.ts`, imported by the route file but not
present among the sources) normalizes the requested city through the
city-alias lookup before the filter predicates are compiled (spec
section 6: `canonicalName` is "used to normalize city filters before
compiling predicates"). -/
def normalizeParams (p : QueryParams) : QueryParams :=
  { p with city := p.city.map getCanonicalCityName }

/-- A request as processed end to end: validator normalization followed
by the shared route handler. -/
def handleRequest (p : QueryParams) (db : List DbRecord) (pick : Nat) : ApiResponse :=
  routeHandler (normalizeParams p) db pick

/-- The `meta.total` field of a 200 response. -/
def responseTotal : ApiResponse → Option Nat
  | ApiResponse.ok t _ _ _ => some t
  | ApiResponse.notFound _ => none

/-- The `data` array of a 200 response. -/
def responseData : ApiResponse → List Place
  | ApiResponse.ok _ _ _ d => d
  | ApiResponse.notFound _ => []

/-- A value looked up in an association list is one of its stored
values. -/
lemma lookup_mem_values (l : List (String × String)) (k v : String)
    (h : l.lookup k = some v) : v ∈ l.map Prod.snd := by
  induction l with
  | nil => simp [List.lookup] at h
  | cons a as ih =>
    obtain ⟨ka, va⟩ := a
    rw [List.lookup] at h
    by_cases hk : k == ka
    · simp only [hk] at h
      simp only [Option.some.injEq] at h
      simp [← h]
    · simp only [Bool.not_eq_true] at hk
      simp only [hk] at h
      simp [ih h]

/-- Every value stored in `REVERSE_ALIAS_MAP` is one of the two
canonical city names. -/
lemma reverse_alias_values :
    REVERSE_ALIAS_MAP.map Prod.snd
      = ["\x27s-Gravenhage", "\x27s-Gravenhage", "\x27s-Gravenhage",
         "\x27s-Gravenhage", "\x27s-Hertogenbosch", "\x27s-Hertogenbosch",
         "\x27s-Hertogenbosch"] := by
  decide

/-- Both canonical city names are fixed points of
`getCanonicalCityName`: each appears in its own alias list. -/
lemma canonical_fixed :
    getCanonicalCityName "\x27s-Gravenhage" = "\x27s-Gravenhage"
      ∧ getCanonicalCityName "\x27s-Hertogenbosch" = "\x27s-Hertogenbosch" := by
  constructor <;> decide

/-- Shared helper: `getCanonicalCityName` is idempotent. -/
lemma canonical_idem (s : String) :
    getCanonicalCityName (getCanonicalCityName s) = getCanonicalCityName s := by
  cases h : REVERSE_ALIAS_MAP.lookup (lowerAscii s) with
  | none =>
    have h1 : getCanonicalCityName s = s := by
      simp [getCanonicalCityName, h, jsOrString]
    rw [h1]
    exact h1
  | some v =>
    have hv : v ∈ REVERSE_ALIAS_MAP.map Prod.snd := lookup_mem_values _ _ _ h
    rw [reverse_alias_values] at hv
    simp only [List.mem_cons, List.not_mem_nil, or_false] at hv
    have h1 : getCanonicalCityName s = v := by
      rcases hv with hv | hv | hv | hv | hv | hv | hv <;> subst hv <;>
        simp [getCanonicalCityName, h, jsOrString]
    rw [h1]
    rcases hv with hv | hv | hv | hv | hv | hv | hv <;> subst hv <;>
      first
        | exact canonical_fixed.1
        | exact canonical_fixed.2

/-- C10: `getCanonicalCityName` is idempotent: applying it to its own
output returns that output unchanged, because every canonical name
appears in its own alias list and unknown names map to themselves. -/
theorem getCanonicalCityName_idempotent (s : String) :
    getCanonicalCityName (getCanonicalCityName s) = getCanonicalCityName s :=
  canonical_idem s

/-- C3: with the validator normalizing the requested city through the
city-alias lookup before the predicates are compiled, a request naming
any known alias of a city is handled exactly like the request naming
the canonical stored name, over every database state and random
source. -/
theorem city_alias_selects_same (p : QueryParams) (db : List DbRecord) (pick : Nat)
    (s : String) (h : p.city = some s) :
    handleRequest p db pick
      = handleRequest { p with city := some (getCanonicalCityName s) } db pick := by
  unfold handleRequest normalizeParams
  rw [h]
  simp [canonical_idem]

/-- A request for the alias "Den Haag", used to witness C3. -/
def qpDenHaag : QueryParams :=
  { city := some "Den Haag", minRating := none, openAfter := none,
    openBefore := none, tags := [], random := false, limit := none, page := none }

/-- Witness for C3 at the alias "Den Haag". -/
theorem city_alias_selects_same_witness :
    handleRequest qpDenHaag [] 0
      = handleRequest { qpDenHaag with city := some (getCanonicalCityName "Den Haag") } [] 0 :=
  city_alias_selects_same qpDenHaag [] 0 "Den Haag" rfl

/-- C7: the two registered paths dispatch to the one shared handler, so
identical query parameters, database state and random source produce
identical payloads. -/
theorem alias_paths_identical (p : QueryParams) (db : List DbRecord) (pick : Nat) :
    serve "/coffee-places" p db pick = serve "/places" p db pick :=
  rfl

/-- A non-null third-party rating wins the precedence rule. -/
lemma ratingOf_google (r : DbRecord) (g : ℚ) (h : r.google_rating = some g) :
    ratingOf r = g := by
  simp [ratingOf, h]

/-- With no third-party rating, a present quality score is halved (the
falsy value 0 falls back to the same 0). -/
lemma ratingOf_quality (r : DbRecord) (s : ℤ) (hg : r.google_rating = none)
    (hs : r.quality_score = some s) :
    ratingOf r = if s = 0 then 0 else (s : ℚ) / 2 := by
  simp [ratingOf, hg, hs]

/-- With both sources absent the rating falls back to 0. -/
lemma ratingOf_none (r : DbRecord) (hg : r.google_rating = none)
    (hs : r.quality_score = none) : ratingOf r = 0 := by
  simp [ratingOf, hg, hs]

/-- C2: whenever both a third-party rating `g` and a completeness score
`s` are present on the raw record, the normalizer exposes `rating = g`,
and in particular not `s / 2` when the two differ. -/
theorem rating_precedence (r : DbRecord) (g : ℚ) (s : ℤ)
    (hg : r.google_rating = some g) (hs : r.quality_score = some s) :
    (transformDatabaseRecord r).rating = g
      ∧ ((s : ℚ) / 2 ≠ g → (transformDatabaseRecord r).rating ≠ (s : ℚ) / 2) := by
  have h1 : (transformDatabaseRecord r).rating = g := ratingOf_google r g hg
  exact ⟨h1, fun hne hc => hne (by rw [h1] at hc; exact hc.symm)⟩

/-- A record carrying both a third-party rating and a quality score,
used to witness C2. -/
def c2rec : DbRecord :=
  { id := "2", name := "B", address_city := none, google_rating := some 4,
    quality_score := some 7, opening_hours_start := none,
    opening_hours_end := none, tags := none }

/-- Witness for C2: both sources present, rating is the third-party
value 4, not 7 / 2. -/
theorem rating_precedence_witness :
    (transformDatabaseRecord c2rec).rating = 4
      ∧ (((7 : ℤ) : ℚ) / 2 ≠ 4 →
          (transformDatabaseRecord c2rec).rating ≠ ((7 : ℤ) : ℚ) / 2) :=
  rating_precedence c2rec 4 7 rfl rfl

/-- C6: for every raw record whose stored sources are in their column
ranges, the exposed rating is a total (never null) value in [0, 5], and
it is exactly 0 when both sources are absent. -/
theorem rating_always_bounded (r : DbRecord)
    (hg : ∀ g, r.google_rating = some g → 0 ≤ g ∧ g ≤ 5)
    (hs : ∀ s, r.quality_score = some s → 0 ≤ s ∧ s ≤ 10) :
    (0 ≤ (transformDatabaseRecord r).rating ∧ (transformDatabaseRecord r).rating ≤ 5)
      ∧ (r.google_rating = none → r.quality_score = none →
          (transformDatabaseRecord r).rating = 0) := by
  have hrat : (transformDatabaseRecord r).rating = ratingOf r := rfl
  constructor
  · cases hgr : r.google_rating with
    | some g =>
      rw [hrat, ratingOf_google r g hgr]
      exact hg g hgr
    | none =>
      cases hqs : r.quality_score with
      | some s =>
        rw [hrat, ratingOf_quality r s hgr hqs]
        rcases hs s hqs with ⟨hs0, hs10⟩
        by_cases h0 : s = 0
        · simp [h0]
        · rw [if_neg h0]
          have c0 : (0 : ℚ) ≤ (s : ℚ) := by exact_mod_cast hs0
          have c10 : (s : ℚ) ≤ 10 := by exact_mod_cast hs10
          constructor
          · linarith
          · linarith
      | none =>
        rw [hrat, ratingOf_none r hgr hqs]
        norm_num
  · intro h1 h2
    rw [hrat, ratingOf_none r h1 h2]

/-- A record with only a completeness score, used to witness C6. -/
def c6rec : DbRecord :=
  { id := "6", name := "F", address_city := none, google_rating := none,
    quality_score := some 7, opening_hours_start := none,
    opening_hours_end := none, tags := none }

/-- Witness for C6 at a record whose only source is a quality score
of 7. -/
theorem rating_always_bounded_witness :
    (0 ≤ (transformDatabaseRecord c6rec).rating
        ∧ (transformDatabaseRecord c6rec).rating ≤ 5)
      ∧ (c6rec.google_rating = none → c6rec.quality_score = none →
          (transformDatabaseRecord c6rec).rating = 0) :=
  rating_always_bounded c6rec
    (fun g h => by simp [c6rec] at h)
    (fun s h => by
      simp only [c6rec, Option.some.injEq] at h
      omega)

/-- C9: a set `openAfter` (resp. `openBefore`) bound excludes every row
whose stored `opening_hours_start` (resp. `opening_hours_end`) column
is NULL, even though the normalizer would have displayed such a row
with the fallback window 08:00 to 18:00. -/
theorem null_hours_excluded (p : QueryParams) (r : DbRecord) (q : String)
    (hq : q ≠ "") :
    (p.openAfter = some q → r.opening_hours_start = none → matchesWhere p r = false)
    ∧ (p.openBefore = some q → r.opening_hours_end = none → matchesWhere p r = false)
    ∧ (r.opening_hours_start = none → (transformDatabaseRecord r).openHoursStart = "08:00")
    ∧ (r.opening_hours_end = none → (transformDatabaseRecord r).openHoursEnd = "18:00") := by
  refine ⟨?_, ?_, ?_, ?_⟩
  · intro hA hN
    simp [matchesWhere, hA, hq, openAfterCond, hN]
  · intro hB hN
    simp [matchesWhere, hB, hq, openBeforeCond, hN]
  · intro hN
    simp [transformDatabaseRecord, jsOrString, hN]
  · intro hN
    simp [transformDatabaseRecord, jsOrString, hN]

/-- A record with NULL opening-hour columns, used to witness C9. -/
def c9rec : DbRecord :=
  { id := "9", name := "N", address_city := none, google_rating := none,
    quality_score := none, opening_hours_start := none,
    opening_hours_end := none, tags := none }

/-- A request with both opening-hour bounds set, used to witness C9. -/
def qpOpen : QueryParams :=
  { city := none, minRating := none, openAfter := some "09:00",
    openBefore := some "17:00", tags := [], random := false,
    limit := none, page := none }

/-- Witness for C9: the NULL-hours record is filtered out while its
display window would have been the 08:00 fallback. -/
theorem null_hours_excluded_witness :
    matchesWhere qpOpen c9rec = false
      ∧ (transformDatabaseRecord c9rec).openHoursStart = "08:00" :=
  ⟨(null_hours_excluded qpOpen c9rec "09:00" (by decide)).1 rfl rfl,
   (null_hours_excluded qpOpen c9rec "09:00" (by decide)).2.2.1 rfl⟩

/-- A request with no filters at all. -/
def qpNone : QueryParams :=
  { city := none, minRating := none, openAfter := none, openBefore := none,
    tags := [], random := false, limit := none, page := none }

/-- A row whose third-party rating is 1 but whose quality score is 9:
its effective rating per the precedence rule is 1. -/
def bugRecord : DbRecord :=
  { id := "1", name := "A", address_city := some "Amsterdam",
    google_rating := some 1, quality_score := some 9,
    opening_hours_start := none, opening_hours_end := none, tags := none }

/-- A request filtering on minimum rating 4. -/
def qpMin4 : QueryParams :=
  { qpNone with minRating := some 4 }

/-- The compiled minimum-rating predicate at threshold 4 lets
`bugRecord` through via its quality-score disjunct (9 >= 4 * 2),
although the Google-rating disjunct fails (1 < 4). -/
lemma bugRecord_matches : matchesWhere qpMin4 bugRecord = true := by
  simp only [matchesWhere, qpMin4, qpNone, bugRecord, minRatingCond, Option.getD_some]
  norm_num

/-- C1 fails on the code: with `minRating = 4` the paged pipeline
returns `bugRecord`, whose exposed rating by the precedence rule is 1,
strictly below the threshold; the SQL predicate accepts it because its
quality-score disjunct is satisfied independently of the precedence
rule. -/
theorem minRating_returns_low_effective_rating :
    routeHandler qpMin4 [bugRecord] 0
        = ApiResponse.ok 1 1 10 [transformDatabaseRecord bugRecord]
      ∧ (transformDatabaseRecord bugRecord).rating = 1
      ∧ ¬ (4 ≤ (transformDatabaseRecord bugRecord).rating) := by
  have hr : (transformDatabaseRecord bugRecord).rating = 1 :=
    ratingOf_google bugRecord 1 rfl
  refine ⟨?_, hr, by rw [hr]; norm_num⟩
  have hfilt : filteredRecords qpMin4 [bugRecord] = [bugRecord] := by
    simp [filteredRecords, List.filter, bugRecord_matches]
  have hrand : qpMin4.random = false := rfl
  unfold routeHandler
  rw [hrand, hfilt]
  rfl

/-- C4: the 404 response arises exactly for a random-mode request whose
filtered set is empty, and a random-mode request with a non-empty
filtered set returns exactly one matching record wrapped in meta
total 1, page 1, pageSize 1. -/
theorem random_mode_characterized (p : QueryParams) (db : List DbRecord) (pick : Nat) :
    ((∃ e, routeHandler p db pick = ApiResponse.notFound e)
        ↔ (p.random = true ∧ filteredRecords p db = []))
    ∧ (p.random = true → filteredRecords p db ≠ [] →
        ∃ r, r ∈ filteredRecords p db
          ∧ routeHandler p db pick = ApiResponse.ok 1 1 1 [transformDatabaseRecord r]) := by
  constructor
  · constructor
    · rintro ⟨e, he⟩
      by_cases hrand : p.random = true
      · refine ⟨hrand, ?_⟩
        cases hm : filteredRecords p db with
        | nil => rfl
        | cons x xs =>
          unfold routeHandler at he
          rw [hrand, hm] at he
          simp [randomResponse] at he
      · have hf : p.random = false := by
          cases hb : p.random
          · rfl
          · exact absurd hb hrand
        unfold routeHandler at he
        rw [hf] at he
        simp [pagedResponse] at he
    · rintro ⟨hrand, hm⟩
      refine ⟨"No coffee places found matching the criteria", ?_⟩
      unfold routeHandler
      rw [hrand, hm]
      simp [randomResponse]
  · intro hrand hne
    obtain ⟨x, xs, hm⟩ : ∃ x xs, filteredRecords p db = x :: xs := by
      cases h : filteredRecords p db with
      | nil => exact absurd h hne
      | cons a b => exact ⟨a, b, rfl⟩
    have hlt : pick % (x :: xs).length < (x :: xs).length :=
      Nat.mod_lt _ (by simp)
    refine ⟨(x :: xs).getD (pick % (x :: xs).length) x, ?_, ?_⟩
    · rw [hm, List.getD_eq_getElem?_getD, List.getElem?_eq_getElem hlt,
          Option.getD_some]
      exact List.getElem_mem hlt
    · unfold routeHandler
      rw [hrand, hm]
      simp [randomResponse]

/-- A random-mode request with no filters, used to witness C4. -/
def qpRandom : QueryParams :=
  { qpNone with random := true }

/-- Witness for C4: random mode over a one-row database returns that
row with meta total 1, page 1, pageSize 1. -/
theorem random_mode_characterized_witness :
    ∃ r, r ∈ filteredRecords qpRandom [c2rec]
      ∧ routeHandler qpRandom [c2rec] 5
          = ApiResponse.ok 1 1 1 [transformDatabaseRecord r] :=
  (random_mode_characterized qpRandom [c2rec] 5).2 rfl (by decide)

/-- Adding a tag to the required set strengthens the compiled WHERE
clause. -/
lemma matchesWhere_tags_mono (p : QueryParams) (t : String) (r : DbRecord)
    (h : matchesWhere { p with tags := t :: p.tags } r = true) :
    matchesWhere p r = true := by
  simp only [matchesWhere, Bool.and_eq_true] at h ⊢
  obtain ⟨⟨⟨⟨h1, h2⟩, h3⟩, h4⟩, h5⟩ := h
  refine ⟨⟨⟨⟨h1, h2⟩, h3⟩, h4⟩, ?_⟩
  rw [if_neg (by simp)] at h5
  by_cases hemp : p.tags.isEmpty
  · rw [if_pos hemp]
  · rw [if_neg hemp]
    unfold tagsCond at h5 ⊢
    cases hts : r.tags with
    | none =>
      rw [hts] at h5
      exact absurd h5 (by simp)
    | some ts =>
      rw [hts] at h5
      simp only [List.all_cons, Bool.and_eq_true] at h5
      exact h5.2

/-- C8: adding a tag to a filter specification shrinks (never grows)
the set of selected rows, and the tag condition holds exactly when the
stored tag array is present and contains every requested tag. -/
theorem tag_filter_monotone (p : QueryParams) (db : List DbRecord) (t : String) :
    ((db.filter (matchesWhere { p with tags := t :: p.tags })).length
        ≤ (db.filter (matchesWhere p)).length)
    ∧ (∀ (req : List String) (r : DbRecord), tagsCond req r = true
        ↔ ∃ ts, r.tags = some ts ∧ ∀ x ∈ req, x ∈ ts) := by
  constructor
  · exact List.Sublist.length_le
      (List.monotone_filter_right db (fun r => matchesWhere_tags_mono p t r))
  · intro req r
    unfold tagsCond
    cases hts : r.tags with
    | none => simp
    | some ts => simp [List.all_eq_true]

/-- Witness for C8: requiring the tag "wifi" on an unfiltered request
does not grow the result set over a one-row database. -/
theorem tag_filter_monotone_witness :
    (([c2rec] : List DbRecord).filter
        (matchesWhere { qpNone with tags := "wifi" :: qpNone.tags })).length
      ≤ (([c2rec] : List DbRecord).filter (matchesWhere qpNone)).length :=
  (tag_filter_monotone qpNone [c2rec] "wifi").1

/-- Concatenating the length-`L` slices of a list, in order, restores
its prefix of length `k * L`. -/
lemma flatMap_slices {α : Type} (L : Nat) (l : List α) (k : Nat) :
    (List.range k).flatMap (fun i => (l.drop (i * L)).take L) = l.take (k * L) := by
  induction k with
  | zero => simp
  | succ n ih =>
    rw [List.range_succ, List.flatMap_append, ih, Nat.succ_mul, List.take_add]
    simp

/-- A request re-issued with a different page and limit but the same
filters: only the `page` and `limit` parameters change. -/
def withPaging (p : QueryParams) (pg lim : Option Nat) : QueryParams :=
  { p with page := pg, limit := lim }

/-- Changing page and limit leaves the compiled WHERE clause, and hence
the filtered set, unchanged. -/
lemma withPaging_filtered (p : QueryParams) (pg lim : Option Nat) (db : List DbRecord) :
    filteredRecords (withPaging p pg lim) db = filteredRecords p db :=
  rfl

/-- A paged-mode request evaluates to the paged response over its
filtered set. -/
lemma routeHandler_paged (p : QueryParams) (db : List DbRecord) (pick : Nat)
    (h : p.random = false) :
    routeHandler p db pick = pagedResponse p (filteredRecords p db) := by
  unfold routeHandler
  rw [h]
  simp

/-- C5: in paged mode `meta.total` is the count of all matches whatever
page and limit are requested; concatenating the data arrays of pages 1
through k (enough pages to cover the count) in order reproduces exactly
the deterministically sorted filtered set, without overlap or gap; and
that sorted sequence is a permutation of the filtered set. -/
theorem pagination_coherent (p : QueryParams) (db : List DbRecord) (k L : Nat)
    (hrand : p.random = false)
    (hk : (filteredRecords p db).length ≤ k * L) :
    (∀ pg lim pk, responseTotal (routeHandler (withPaging p pg lim) db pk)
        = some (filteredRecords p db).length)
    ∧ ((List.range k).flatMap
          (fun i => responseData
            (routeHandler (withPaging p (some (i + 1)) (some L)) db 0))
        = (List.insertionSort recordOrder (filteredRecords p db)).map
            transformDatabaseRecord)
    ∧ (List.insertionSort recordOrder (filteredRecords p db)).Perm
        (filteredRecords p db) := by
  refine ⟨?_, ?_, List.perm_insertionSort _ _⟩
  · intro pg lim pk
    rw [routeHandler_paged _ _ _ (show (withPaging p pg lim).random = false from hrand),
        withPaging_filtered]
    simp [pagedResponse, responseTotal]
  · have hdata : ∀ i : Nat,
        responseData (routeHandler (withPaging p (some (i + 1)) (some L)) db 0)
          = (((List.insertionSort recordOrder (filteredRecords p db)).map
                transformDatabaseRecord).drop (i * L)).take L := by
      intro i
      rw [routeHandler_paged _ _ _
            (show (withPaging p (some (i + 1)) (some L)).random = false from hrand),
          withPaging_filtered]
      have hlim : (withPaging p (some (i + 1)) (some L)).limit = some L := rfl
      have hpg : (withPaging p (some (i + 1)) (some L)).page = some (i + 1) := rfl
      simp only [pagedResponse, responseData, hlim, hpg, Option.getD_some,
        Nat.add_sub_cancel]
      rw [List.map_take, List.map_drop]
    have hlen : ((List.insertionSort recordOrder (filteredRecords p db)).map
        transformDatabaseRecord).length ≤ k * L := by
      rw [List.length_map,
          (List.perm_insertionSort recordOrder (filteredRecords p db)).length_eq]
      exact hk
    simp only [hdata]
    rw [flatMap_slices, List.take_of_length_le hlen]

/-- A two-row database, used to witness C5. -/
def dbTwo : List DbRecord :=
  [bugRecord, c2rec]

/-- Witness for C5: two pages of size 1 over the two-row database
reproduce the whole sorted filtered set. -/
theorem pagination_coherent_witness :
    (List.range 2).flatMap
        (fun i => responseData
          (routeHandler (withPaging qpNone (some (i + 1)) (some 1)) dbTwo 0))
      = (List.insertionSort recordOrder (filteredRecords qpNone dbTwo)).map
          transformDatabaseRecord :=
  (pagination_coherent qpNone dbTwo 2 1 rfl (by decide)).2.1

end CoffeeApi
